import Mathlib

set_option maxRecDepth 8000
set_option linter.unusedVariables false
set_option linter.unnecessarySimpa false

/-!
Shallow embedding of the batch / pipeline orchestration logic of this
repository, taken from the two source files
src/components/ChatInterface.tsx (the handleSend batch builder and
sequential executor, and executeSingleGeneration) and
src/components/PipelineModal.tsx (attachment management and handleExecute).
Strings are Lean strings, machine time is modelled as abstract Nat time
units, and the external generation client is modelled by an outcome
assignment (per task index: a successful part list with its elapsed time,
a thrown error, or an abort).
-/

/-- An attached image, src/types Attachment restricted to the two fields the
orchestration logic reads and forwards (the browser File handle and the
preview data URL are UI-only). -/
structure Attachment where
  base64Data : String
  mimeType : String
  deriving DecidableEq, Repr

/-- Inline image data carried inside a content part. -/
structure InlineData where
  mimeType : String
  data : String
  deriving DecidableEq, Repr

/-- A content part, src/types ContentPart: optional text, optional inline image data,
and a thought flag (an absent flag reads as false). -/
structure ContentPart where
  text : Option String := none
  inlineData : Option InlineData := none
  thought : Bool := false
  deriving DecidableEq, Repr

/-- One batch generation task built by handleSend: an element of the tasks
array, a record of the prompt text and the attachments it is sent with
(ChatInterface.tsx line 78). -/
structure GenTask where
  text : String
  attachments : List Attachment
  deriving DecidableEq, Repr

/-- The batch mode selector read by handleSend (ChatInterface.tsx lines
77-119): off, normal (repeat), multi-image (fan-out), image-multi-prompt
(pair prompts to images). -/
inductive BatchMode
  | off
  | normal
  | multiImage
  | imageMultiPrompt
  deriving DecidableEq, Repr

/-- The validation failures of handleSend that stop the batch before any task
runs: each corresponds to one error toast followed by an early return
(ChatInterface.tsx lines 87-89, 97-103, 109-112). -/
inductive ValidationError
  | noImagesMultiImage
  | noImagesImageMultiPrompt
  | emptyPromptText
  | noValidPrompts
  deriving DecidableEq, Repr

/-- JavaScript whitespace test backing String.prototype.trim, restricted to
the ASCII whitespace characters. -/
def jsWhitespace (c : Char) : Bool :=
  c == ' ' || c == '\t' || c == '\n' || c == '\r' || c == '\x0b' || c == '\x0c'

/-- Drop whitespace from both ends of a character list. -/
def trimChars (l : List Char) : List Char :=
  ((l.dropWhile jsWhitespace).reverse.dropWhile jsWhitespace).reverse

/-- Model of JavaScript String.prototype.trim. -/
def jsTrim (s : String) : String := String.mk (trimChars s.data)

/-- State machine for splitting a character list at every maximal run of three
or more dashes, the behaviour of JavaScript String.prototype.split applied to
the dash regular expression of ChatInterface.tsx line 107. The argument pend
counts the dashes seen since the last non-dash character, cur is the current
segment in reverse, and acc is the list of finished segments. -/
def splitDashesAux : List Char → Nat → List Char → List (List Char) → List (List Char)
  | [], pend, cur, acc =>
      if 3 ≤ pend then acc ++ [cur.reverse, []]
      else acc ++ [(List.replicate pend '-' ++ cur).reverse]
  | c :: cs, pend, cur, acc =>
      if c = '-' then splitDashesAux cs (pend + 1) cur acc
      else if 3 ≤ pend then splitDashesAux cs 0 [c] (acc ++ [cur.reverse])
      else splitDashesAux cs 0 (c :: (List.replicate pend '-' ++ cur)) acc

/-- Split a string at every maximal run of three or more dashes. -/
def splitDashes (s : String) : List String :=
  (splitDashesAux s.data 0 [] []).map String.mk

/-- ChatInterface.tsx line 107: split the prompt text on runs of three or more
dashes, trim each piece, and keep only the non-empty pieces. -/
def splitPrompts (text : String) : List String :=
  ((splitDashes text).map jsTrim).filter (fun p => decide (0 < p.length))

/-- ChatInterface.tsx lines 115-118: map over the attachments with their
index, pairing attachment i with sub-prompt i modulo the sub-prompt count.
The counter argument carries the current index. -/
def pairTasksFrom (ps : List String) (h : ¬ ps = []) : Nat → List Attachment → List GenTask
  | _, [] => []
  | i, att :: rest =>
      ⟨ps.get ⟨i % ps.length, Nat.mod_lt _ (List.length_pos.mpr h)⟩, [att]⟩ ::
        pairTasksFrom ps h (i + 1) rest

/-- The task-building phase of handleSend (ChatInterface.tsx lines 77-119).
Mode normal pushes the same task batchCount times; mode multi-image requires
at least one attachment and makes one single-image task per attachment; mode
image-multi-prompt additionally requires a non-blank prompt text whose dash
split leaves at least one sub-prompt, and pairs attachment i with sub-prompt
i modulo the sub-prompt count. Mode off performs a single generation with
the raw input. -/
def buildTasks (text : String) (attachments : List Attachment) (mode : BatchMode)
    (batchCount : Nat) : Except ValidationError (List GenTask) :=
  match mode with
  | .off => .ok [⟨text, attachments⟩]
  | .normal => .ok (List.replicate batchCount ⟨text, attachments⟩)
  | .multiImage =>
      if attachments.length = 0 then .error .noImagesMultiImage
      else .ok (attachments.map (fun att => ⟨text, [att]⟩))
  | .imageMultiPrompt =>
      if attachments.length = 0 then .error .noImagesImageMultiPrompt
      else if jsTrim text = "" then .error .emptyPromptText
      else
        let prompts := splitPrompts text
        if h : prompts = [] then .error .noValidPrompts
        else .ok (pairTasksFrom prompts h 0 attachments)

/-- Pipeline step status, src/types PipelineStep status field. -/
inductive StepStatus
  | pending
  | running
  | done
  | failed
  deriving DecidableEq, Repr

/-- A pipeline step, src/types PipelineStep as used by PipelineModal.tsx. -/
structure PipelineStep where
  id : String
  prompt : String
  modelName : Option String := none
  status : StepStatus := .pending
  deriving DecidableEq, Repr

/-- The pipeline execution mode selector of PipelineModal.tsx. -/
inductive PipelineMode
  | serial
  | parallel
  deriving DecidableEq, Repr

/-- The two alert messages of handleExecute (PipelineModal.tsx lines 152 and
156): at least one step required, at least one initial image required. -/
inductive AlertMsg
  | needOneStep
  | needOneImage
  deriving DecidableEq, Repr

/-- What handleExecute does: either it alerts and returns without invoking
onExecute, or it invokes onExecute with the mode, the valid steps and the
attachments (PipelineModal.tsx lines 149-161). -/
inductive ExecuteResult
  | alerted (msg : AlertMsg)
  | executed (mode : PipelineMode) (steps : List PipelineStep) (attachments : List Attachment)
  deriving DecidableEq, Repr

/-- PipelineModal.tsx line 150: keep the steps whose trimmed prompt is
non-empty. -/
def validPipelineSteps (steps : List PipelineStep) : List PipelineStep :=
  steps.filter (fun s => decide (0 < (jsTrim s.prompt).length))

/-- PipelineModal.tsx handleExecute (lines 149-161): filter to the valid
steps, alert and stop if none remain or if no attachment was uploaded, and
otherwise hand mode, valid steps and attachments to onExecute. -/
def handleExecute (mode : PipelineMode) (steps : List PipelineStep)
    (attachments : List Attachment) : ExecuteResult :=
  let validSteps := validPipelineSteps steps
  if validSteps.length = 0 then .alerted .needOneStep
  else if attachments.length = 0 then .alerted .needOneImage
  else .executed mode validSteps attachments

/-- The operations that mutate the attachment list of PipelineModal.tsx: a
processFiles call appending the converted image files (line 133, capped by
slice(0, 14)), a removeAttachment call (line 137), and handleReset
(line 170). -/
inductive AttachOp
  | add (newAttachments : List Attachment)
  | remove (index : Nat)
  | reset
  deriving DecidableEq, Repr

/-- removeAttachment (PipelineModal.tsx line 137): keep the entries whose
position differs from the removed index. The counter argument carries the
current position. -/
def removeAtIdx (index : Nat) : Nat → List Attachment → List Attachment
  | _, [] => []
  | k, a :: rest =>
      if k = index then removeAtIdx index (k + 1) rest
      else a :: removeAtIdx index (k + 1) rest

/-- One state transition of the attachment list. Adding appends the new
attachments and truncates to the first 14 entries, exactly the
slice(0, 14) of PipelineModal.tsx line 133. -/
def applyOp (prev : List Attachment) : AttachOp → List Attachment
  | .add newAttachments => (prev ++ newAttachments).take 14
  | .remove index => removeAtIdx index 0 prev
  | .reset => []

/-- The attachment list reached from the initial empty state by a sequence of
operations. -/
def applyOps (ops : List AttachOp) : List Attachment :=
  ops.foldl applyOp []

/-- Outcome of one generation call, abstracting the external generation
client: a successful result with its model parts and elapsed wall-clock
time, a thrown error, or an abort of the in-flight network operation. -/
inductive GenOutcome
  | ok (modelParts : List ContentPart) (elapsed : Nat)
  | err (message : String)
  | aborted
  deriving DecidableEq, Repr

/-- Whether an outcome is a thrown (non-abort) error. -/
def isErrOutcome : GenOutcome → Bool
  | .err _ => true
  | _ => false

/-- ChatInterface.tsx lines 246-255, the non-streaming branch: hasThought is
true when some model part carries the thought flag, and updateLastMessage
receives the total elapsed duration exactly when hasThought holds, and no
duration otherwise. -/
def nonStreamingThinking (modelParts : List ContentPart) (totalDuration : Nat) : Option Nat :=
  if modelParts.any (fun p => p.thought) then some totalDuration else none

/-- Modelled from the spec: the isThoughtOnly field of GenerationResult, the
result consisting of thought parts only. The GenerationResult record itself
is produced by services/geminiService.ts, which is not among the provided
source files. -/
def isThoughtOnly (modelParts : List ContentPart) : Bool :=
  modelParts.all (fun p => p.thought)

/-- The observable effects of one executeSingleGeneration call
(ChatInterface.tsx lines 149-297): the thinking duration recorded on the
final updateLastMessage (none when no duration was passed), whether the
error branch replaced the placeholder with an error message, and the
non-thought image parts appended to the image history. The function is
total: an abort is caught and swallowed (lines 277-280) and any other error
is caught, logged and rendered (lines 281-289), so no rejection ever reaches
the caller. -/
structure SingleGenResult where
  recordedThinking : Option Nat
  errorShown : Bool
  historyImages : List InlineData
  deriving DecidableEq, Repr

/-- Model of executeSingleGeneration in the non-streaming configuration,
driven by the outcome of its generation call. -/
def executeSingleGeneration (text : String) (attachments : List Attachment)
    (outcome : GenOutcome) : SingleGenResult :=
  match outcome with
  | .ok modelParts elapsed =>
      { recordedThinking := nonStreamingThinking modelParts elapsed
        errorShown := false
        historyImages :=
          (modelParts.filter (fun p => p.inlineData.isSome && !p.thought)).filterMap
            (fun p => p.inlineData) }
  | .err _ => { recordedThinking := none, errorShown := true, historyImages := [] }
  | .aborted => { recordedThinking := none, errorShown := false, historyImages := [] }

/-- Toast severity levels used by handleSend. -/
inductive ToastLevel
  | info
  | error
  | success
  deriving DecidableEq, BEq, Repr

/-- The toast messages of the batch path of handleSend, carrying the numbers
they interpolate. -/
inductive ToastMsg
  | startBatch (total : Nat)
  | batchDone (total : Nat)
  deriving DecidableEq, BEq, Repr

/-- One toast notification. -/
structure Toast where
  message : ToastMsg
  level : ToastLevel
  deriving DecidableEq, BEq, Repr

/-- The state the batch loop of handleSend mutates: the progress indicator,
the toast list, the indices of the tasks whose execution was started, the
indices on which an error was caught and logged, and the accumulated image
history. -/
structure BatchState where
  progress : Nat × Nat
  toasts : List Toast
  started : List Nat
  errorsShown : List Nat
  history : List InlineData
  deriving DecidableEq, Repr

/-- One iteration of the batch loop (ChatInterface.tsx lines 125-137): set
progress to (i + 1, n), invoke executeSingleGeneration on task i, record its
effects, and continue. executeSingleGeneration never rejects, so the
surrounding try-catch never fires and the loop body imposes no early exit;
in particular an aborted task does not stop the loop. -/
def batchStep (n : Nat) (outcomes : Nat → GenOutcome) (i : Nat) (t : GenTask)
    (st : BatchState) : BatchState :=
  let r := executeSingleGeneration t.text t.attachments (outcomes i)
  { st with
      progress := (i + 1, n)
      started := st.started ++ [i]
      errorsShown := st.errorsShown ++ (if r.errorShown then [i] else [])
      history := st.history ++ r.historyImages }

/-- The batch loop, indexed form of the for loop at ChatInterface.tsx
line 125. The fixed 500ms pause between tasks changes no observable state
and is elided. -/
def runBatchLoop (n : Nat) (outcomes : Nat → GenOutcome) :
    Nat → List GenTask → BatchState → BatchState
  | _, [], st => st
  | i, t :: rest, st => runBatchLoop n outcomes (i + 1) rest (batchStep n outcomes i t st)

/-- The batch execution of handleSend (ChatInterface.tsx lines 121-142):
initial progress (0, n) and a start toast, the loop over all tasks, then the
progress reset to (0, 0) and the unconditional completion toast carrying the
total task count. -/
def runBatch (tasks : List GenTask) (outcomes : Nat → GenOutcome) : BatchState :=
  let n := tasks.length
  let st0 : BatchState :=
    { progress := (0, n)
      toasts := [⟨.startBatch n, .info⟩]
      started := []
      errorsShown := []
      history := [] }
  let st1 := runBatchLoop n outcomes 0 tasks st0
  { st1 with
      progress := (0, 0)
      toasts := st1.toasts ++ [⟨.batchDone n, .success⟩] }

/-- The list of k consecutive indices starting at i. -/
def idxFrom (i : Nat) : Nat → List Nat
  | 0 => []
  | k + 1 => i :: idxFrom (i + 1) k

/-! Concrete inputs used by the closed statements below. -/

/-- A first sample attachment. -/
def attA : Attachment := ⟨"imagedataA", "image/png"⟩

/-- A second sample attachment. -/
def attB : Attachment := ⟨"imagedataB", "image/png"⟩

/-- A third sample attachment. -/
def attC : Attachment := ⟨"imagedataC", "image/jpeg"⟩

/-- Fallback attachment for positional lookups. -/
def dummyAtt : Attachment := ⟨"", ""⟩

/-- Fallback task for positional lookups. -/
def dummyTask : GenTask := ⟨"", []⟩

/-- A sample batch task. -/
def exTask : GenTask := ⟨"p", []⟩

/-- An outcome assignment in which the generation of task 1 is aborted by the
cancellation signal and every other task succeeds. -/
def exOutcomes : Nat → GenOutcome :=
  fun i => if i = 1 then GenOutcome.aborted else GenOutcome.ok [] 0

/-- An outcome assignment in which task 1 throws and every other task
succeeds. -/
def exErrOutcomes : Nat → GenOutcome :=
  fun i => if i = 1 then GenOutcome.err "boom" else GenOutcome.ok [] 0

/-- A pipeline step whose prompt is blank after trimming. -/
def stepBlank : PipelineStep := { id := "s0", prompt := "   " }

/-- A pipeline step with a real prompt. -/
def stepA : PipelineStep := { id := "s1", prompt := "Convert to line art" }

/-- A model part carrying only the thought flag. -/
def thoughtPart : ContentPart := { thought := true }

/-- A non-thought model part carrying answer text. -/
def answerPart : ContentPart := { text := some "answer" }

/-! Helper lemmas. -/

/-- A string has positive length exactly when it is not the empty string. -/
theorem stringLengthPos (s : String) : 0 < s.length ↔ ¬ s = "" := by
  cases s with
  | mk data =>
      simp [String.length, String.ext_iff, List.length_pos]

/-- Joining a list of singletons gives back the original list. -/
theorem listJoinSingleton {α : Type} : ∀ (l : List α), (l.map (fun a => [a])).flatten = l
  | [] => rfl
  | a :: rest => by simp [listJoinSingleton rest]

/-- The length of a pairing of attachments with sub-prompts is the number of
attachments. -/
theorem pairTasksFrom_length (ps : List String) (h : ¬ ps = []) :
    ∀ (atts : List Attachment) (k : Nat), (pairTasksFrom ps h k atts).length = atts.length
  | [], _ => rfl
  | _ :: rest, k => by
      simp [pairTasksFrom, pairTasksFrom_length ps h rest (k + 1)]

/-- Element i of a pairing started at counter k holds sub-prompt (k + i) modulo
the sub-prompt count and the single attachment at position i. -/
theorem pairTasksFrom_getD (ps : List String) (h : ¬ ps = []) :
    ∀ (atts : List Attachment) (k i : Nat), i < atts.length →
      (pairTasksFrom ps h k atts).getD i dummyTask =
        ⟨ps.getD ((k + i) % ps.length) "", [atts.getD i dummyAtt]⟩
  | [], _, _, hi => absurd hi (by simp)
  | a :: rest, k, 0, _ => by
      have hk : k % ps.length < ps.length := Nat.mod_lt _ (List.length_pos.mpr h)
      simp [pairTasksFrom, List.getD_cons_zero, List.getD_eq_getElem ps "" hk,
        List.get_eq_getElem, List.getElem?_eq_getElem hk]
  | a :: rest, k, i + 1, hi => by
      have harith : k + 1 + i = k + (i + 1) := by omega
      simp only [pairTasksFrom, List.getD_cons_succ]
      rw [pairTasksFrom_getD ps h rest (k + 1) i (by simpa using hi), harith]

/-- Removing an index never lengthens the attachment list. -/
theorem removeAtIdx_length_le (index : Nat) :
    ∀ (k : Nat) (l : List Attachment), (removeAtIdx index k l).length ≤ l.length
  | _, [] => Nat.le_refl 0
  | k, a :: rest => by
      simp only [removeAtIdx]
      split
      · exact Nat.le_succ_of_le (removeAtIdx_length_le index (k + 1) rest)
      · simpa using removeAtIdx_length_le index (k + 1) rest

/-- Every attachment operation preserves the 14-entry bound. -/
theorem applyOp_length_le (prev : List Attachment) (op : AttachOp)
    (h : prev.length ≤ 14) : (applyOp prev op).length ≤ 14 := by
  cases op with
  | add newAttachments =>
      simpa [applyOp] using Nat.min_le_left 14 (prev ++ newAttachments).length
  | remove index => exact Nat.le_trans (removeAtIdx_length_le index 0 prev) h
  | reset => simp [applyOp]

/-- The attachment list reached by any operation sequence from a bounded start
stays bounded by 14 entries. -/
theorem foldl_applyOp_length_le :
    ∀ (ops : List AttachOp) (init : List Attachment), init.length ≤ 14 →
      (ops.foldl applyOp init).length ≤ 14
  | [], _, h => h
  | op :: rest, init, h =>
      foldl_applyOp_length_le rest (applyOp init op) (applyOp_length_le init op h)

/-- The attachment list reached from the empty state never exceeds 14
entries. -/
theorem applyOps_length_le (ops : List AttachOp) : (applyOps ops).length ≤ 14 :=
  foldl_applyOp_length_le ops [] (by simp)

/-- executeSingleGeneration shows an error exactly on a thrown (non-abort)
outcome. -/
theorem executeSingleGeneration_errorShown (text : String) (atts : List Attachment)
    (o : GenOutcome) :
    (executeSingleGeneration text atts o).errorShown = isErrOutcome o := by
  cases o <;> rfl

/-- The batch loop never emits a toast. -/
theorem runBatchLoop_toasts (n : Nat) (o : Nat → GenOutcome) :
    ∀ (tasks : List GenTask) (i : Nat) (st : BatchState),
      (runBatchLoop n o i tasks st).toasts = st.toasts
  | [], _, _ => rfl
  | _ :: rest, i, st => by
      simp [runBatchLoop, runBatchLoop_toasts n o rest (i + 1), batchStep]

/-- The batch loop starts every task it is given, in index order, whatever the
outcomes are: aborted or failing generations do not stop it. -/
theorem runBatchLoop_started (n : Nat) (o : Nat → GenOutcome) :
    ∀ (tasks : List GenTask) (i : Nat) (st : BatchState),
      (runBatchLoop n o i tasks st).started = st.started ++ idxFrom i tasks.length
  | [], _, _ => by simp [runBatchLoop, idxFrom]
  | _ :: rest, i, st => by
      simp [runBatchLoop, runBatchLoop_started n o rest (i + 1), batchStep, idxFrom]

/-- The batch loop records an error exactly at the indices whose outcome is a
thrown error. -/
theorem runBatchLoop_errors (n : Nat) (o : Nat → GenOutcome) :
    ∀ (tasks : List GenTask) (i : Nat) (st : BatchState),
      (runBatchLoop n o i tasks st).errorsShown =
        st.errorsShown ++ (idxFrom i tasks.length).filter (fun k => isErrOutcome (o k))
  | [], _, _ => by simp [runBatchLoop, idxFrom]
  | t :: rest, i, st => by
      simp only [runBatchLoop, runBatchLoop_errors n o rest (i + 1), batchStep,
        executeSingleGeneration_errorShown, List.length_cons, idxFrom, List.filter_cons]
      by_cases hc : isErrOutcome (o i) = true
      · simp [hc]
      · simp [hc]

/-- Consecutive indices extended by one on the right. -/
theorem idxFrom_succ_right : ∀ (k i : Nat), idxFrom i (k + 1) = idxFrom i k ++ [i + k]
  | 0, i => by simp [idxFrom]
  | k + 1, i => by
      have harith : i + 1 + k = i + (k + 1) := by omega
      show i :: idxFrom (i + 1) (k + 1) = (i :: idxFrom (i + 1) k) ++ [i + (k + 1)]
      rw [idxFrom_succ_right k (i + 1), harith, List.cons_append]

/-- Consecutive indices from zero are exactly List.range. -/
theorem idxFrom_zero_eq_range : ∀ (n : Nat), idxFrom 0 n = List.range n
  | 0 => rfl
  | n + 1 => by
      rw [idxFrom_succ_right, idxFrom_zero_eq_range n, List.range_succ]
      simp

/-! Claim theorems. -/

/-- C1, counterexample: with four queued tasks and the generation of task 1
(the second task) aborted by the cancellation signal, the executor still
starts tasks 2 and 3 and still fires the terminal batch-complete toast,
contradicting the claim that no task after the cancelled one is started and
that the completion notification does not fire. -/
theorem batch_cancel_counterexample :
    (runBatch [exTask, exTask, exTask, exTask] exOutcomes).started = [0, 1, 2, 3] ∧
    (runBatch [exTask, exTask, exTask, exTask] exOutcomes).toasts =
      [⟨ToastMsg.startBatch 4, ToastLevel.info⟩, ⟨ToastMsg.batchDone 4, ToastLevel.success⟩] := by
  decide

/-- C1, amended: if a cancellation signal is raised while task i is in
flight, the in-flight network operation is aborted, but the resulting
AbortError is swallowed inside executeSingleGeneration, so every queued task
is still started (each with a fresh abort controller) and the terminal
batch-complete notification still fires. -/
theorem batch_continues_after_abort (tasks : List GenTask) (outcomes : Nat → GenOutcome)
    (i : Nat) (hi : i < tasks.length) (hab : outcomes i = GenOutcome.aborted) :
    (runBatch tasks outcomes).started = List.range tasks.length ∧
    (⟨ToastMsg.batchDone tasks.length, ToastLevel.success⟩ : Toast) ∈
      (runBatch tasks outcomes).toasts := by
  constructor
  · simp [runBatch, runBatchLoop_started, idxFrom_zero_eq_range]
  · simp [runBatch, runBatchLoop_toasts]

/-- C1, witness: the amended statement instantiated at the four-task batch
whose second task is aborted. -/
theorem batch_continues_after_abort_witness :
    1 < ([exTask, exTask, exTask, exTask] : List GenTask).length ∧
      exOutcomes 1 = GenOutcome.aborted ∧
      ((runBatch [exTask, exTask, exTask, exTask] exOutcomes).started = List.range 4 ∧
        (⟨ToastMsg.batchDone 4, ToastLevel.success⟩ : Toast) ∈
          (runBatch [exTask, exTask, exTask, exTask] exOutcomes).toasts) :=
  ⟨by decide, by decide,
    batch_continues_after_abort [exTask, exTask, exTask, exTask] exOutcomes 1
      (by decide) (by decide)⟩

/-- C2, counterexample: with repeatCount 5, outside the claimed [1, 4]
bounds, the builder raises no validation error and produces five tasks. -/
theorem buildTasks_normal_five_counterexample :
    buildTasks "p" [attA] BatchMode.normal 5 =
      Except.ok [⟨"p", [attA]⟩, ⟨"p", [attA]⟩, ⟨"p", [attA]⟩, ⟨"p", [attA]⟩, ⟨"p", [attA]⟩] :=
  rfl

/-- C2, amended: for every repeatCount, building tasks in repeat mode
returns exactly repeatCount tasks, each identical to the prompt with its
attachments; the builder performs no bounds validation, so repeatCount
values outside [1, 4] are not rejected with a validation error. -/
theorem buildTasks_normal_replicates (text : String) (atts : List Attachment) (n : Nat) :
    ∃ ts, buildTasks text atts BatchMode.normal n = Except.ok ts ∧
      ts.length = n ∧ ∀ t ∈ ts, t = ⟨text, atts⟩ := by
  refine ⟨List.replicate n ⟨text, atts⟩, rfl, by simp, ?_⟩
  intro t ht
  exact List.eq_of_mem_replicate ht

/-- C3, counterexample: for prompt "A, B, C" with two images, the comma is
not a delimiter: the produced tasks both carry the whole prompt "A, B, C",
not the claimed sub-prompts "A" and "B". -/
theorem pair_mode_comma_counterexample :
    buildTasks "A, B, C" [attA, attB] BatchMode.imageMultiPrompt 1 =
      Except.ok [⟨"A, B, C", [attA]⟩, ⟨"A, B, C", [attB]⟩] ∧
    ([⟨"A, B, C", [attA]⟩, ⟨"A, B, C", [attB]⟩] : List GenTask) ≠
      [⟨"A", [attA]⟩, ⟨"B", [attB]⟩] :=
  ⟨rfl, by decide⟩

/-- C3, amended: in the quick-batch pair-prompts-to-images mode the prompt
text is split on runs of three or more dashes (trimmed, empty pieces
dropped), not on commas or newlines; for input "A---B---C" with two images
the produced task list is sub-prompt "A" with the first image and
sub-prompt "B" with the second, with "C" dropped, while the comma-separated
"A, B, C" stays one single sub-prompt. -/
theorem pair_mode_dash_delimiter :
    splitPrompts "A---B---C" = ["A", "B", "C"] ∧
    splitPrompts "A, B, C" = ["A, B, C"] ∧
    buildTasks "A---B---C" [attA, attB] BatchMode.imageMultiPrompt 1 =
      Except.ok [⟨"A", [attA]⟩, ⟨"B", [attB]⟩] :=
  ⟨rfl, rfl, rfl⟩

/-- C4: with a non-empty image list of size N and M dash-separated
sub-prompts, M < N, pair mode produces exactly N tasks, task i carrying
sub-prompt i modulo M and exactly the single image i, for all i below N. -/
theorem pair_mode_modular_assignment (text : String) (c : Nat) (atts : List Attachment)
    (hA : ¬ atts = []) (hT : ¬ jsTrim text = "") (hM : ¬ splitPrompts text = [])
    (hMN : (splitPrompts text).length < atts.length) :
    ∃ ts, buildTasks text atts BatchMode.imageMultiPrompt c = Except.ok ts ∧
      ts.length = atts.length ∧
      ∀ i, i < atts.length →
        ts.getD i dummyTask =
          ⟨(splitPrompts text).getD (i % (splitPrompts text).length) "",
            [atts.getD i dummyAtt]⟩ := by
  have hl : ¬ atts.length = 0 := by simpa [List.length_eq_zero] using hA
  refine ⟨pairTasksFrom (splitPrompts text) hM 0 atts, ?_, pairTasksFrom_length _ hM atts 0, ?_⟩
  · simp [buildTasks, hl, hT, hM]
  · intro i hi
    simpa using pairTasksFrom_getD (splitPrompts text) hM atts 0 i hi

/-- C4, witness: prompt "A---B" gives the two sub-prompts "A" and "B",
paired cyclically with three images. -/
theorem pair_mode_modular_assignment_witness :
    (¬ ([attA, attB, attC] : List Attachment) = []) ∧
      (¬ jsTrim "A---B" = "") ∧ (¬ splitPrompts "A---B" = []) ∧
      (splitPrompts "A---B").length < ([attA, attB, attC] : List Attachment).length ∧
      ∃ ts, buildTasks "A---B" [attA, attB, attC] BatchMode.imageMultiPrompt 1 =
          Except.ok ts ∧
        ts.length = 3 ∧
        ∀ i, i < 3 →
          ts.getD i dummyTask =
            ⟨(splitPrompts "A---B").getD (i % (splitPrompts "A---B").length) "",
              [([attA, attB, attC] : List Attachment).getD i dummyAtt]⟩ :=
  ⟨by decide, by decide, by decide, by decide,
    pair_mode_modular_assignment "A---B" 1 [attA, attB, attC]
      (by decide) (by decide) (by decide) (by decide)⟩

/-- C5: fan-out-images mode on an empty image list signals the no-images
validation error and produces no tasks; on a non-empty list of size N it
produces exactly N tasks, each carrying the shared prompt text and exactly
one image, and the concatenation of the single-image sets is exactly the
input image list, with no repeats and no omissions. -/
theorem fanout_images_spec (text : String) (c : Nat) (atts : List Attachment) :
    (atts = [] →
      buildTasks text atts BatchMode.multiImage c =
        Except.error ValidationError.noImagesMultiImage) ∧
    (¬ atts = [] →
      ∃ ts, buildTasks text atts BatchMode.multiImage c = Except.ok ts ∧
        ts.length = atts.length ∧
        (∀ t ∈ ts, t.text = text ∧ t.attachments.length = 1) ∧
        (ts.map (fun t => t.attachments)).flatten = atts) := by
  constructor
  · rintro rfl; rfl
  · intro h
    have hl : ¬ atts.length = 0 := by simpa [List.length_eq_zero] using h
    refine ⟨atts.map (fun att => ⟨text, [att]⟩), by simp [buildTasks, hl], by simp, ?_, ?_⟩
    · intro t ht
      simp only [List.mem_map] at ht
      obtain ⟨a, _, rfl⟩ := ht
      exact ⟨rfl, rfl⟩
    · rw [List.map_map]
      exact listJoinSingleton atts

/-- C5, witness: the validation failure at the empty list and the two-image
fan-out, instantiated. -/
theorem fanout_images_spec_witness :
    buildTasks "p" [] BatchMode.multiImage 1 =
      Except.error ValidationError.noImagesMultiImage ∧
    ∃ ts, buildTasks "p" [attA, attB] BatchMode.multiImage 1 = Except.ok ts ∧
      ts.length = 2 ∧
      (∀ t ∈ ts, t.text = "p" ∧ t.attachments.length = 1) ∧
      (ts.map (fun t => t.attachments)).flatten = [attA, attB] :=
  ⟨(fanout_images_spec "p" 1 []).1 rfl,
    (fanout_images_spec "p" 1 [attA, attB]).2 (by decide)⟩

/-- C6: a thrown failure of any single task is caught and logged and every
task is still attempted in order; afterwards progress is reset to empty and
exactly one summary toast fires, at success level, carrying the total task
count. -/
theorem batch_error_isolated (tasks : List GenTask) (outcomes : Nat → GenOutcome)
    (j : Nat) (msg : String) (hj : j < tasks.length)
    (hfail : outcomes j = GenOutcome.err msg) :
    (runBatch tasks outcomes).started = List.range tasks.length ∧
    j ∈ (runBatch tasks outcomes).errorsShown ∧
    (runBatch tasks outcomes).progress = (0, 0) ∧
    (runBatch tasks outcomes).toasts.filter (fun t => t.level == ToastLevel.success) =
      [⟨ToastMsg.batchDone tasks.length, ToastLevel.success⟩] := by
  have htoasts : (runBatch tasks outcomes).toasts =
      [⟨ToastMsg.startBatch tasks.length, ToastLevel.info⟩,
        ⟨ToastMsg.batchDone tasks.length, ToastLevel.success⟩] := by
    simp [runBatch, runBatchLoop_toasts]
  refine ⟨?_, ?_, ?_, ?_⟩
  · simp [runBatch, runBatchLoop_started, idxFrom_zero_eq_range]
  · have herr : (runBatch tasks outcomes).errorsShown =
        (List.range tasks.length).filter (fun k => isErrOutcome (outcomes k)) := by
      simp [runBatch, runBatchLoop_errors, idxFrom_zero_eq_range]
    rw [herr]
    refine List.mem_filter.mpr ⟨List.mem_range.mpr hj, ?_⟩
    rw [hfail]
    rfl
  · simp [runBatch]
  · rw [htoasts]
    rfl

/-- C6, witness: three tasks of which the second throws; the other two are
still attempted, progress ends empty, and the single success toast reports
the total of three. -/
theorem batch_error_isolated_witness :
    1 < ([exTask, exTask, exTask] : List GenTask).length ∧
      exErrOutcomes 1 = GenOutcome.err "boom" ∧
      ((runBatch [exTask, exTask, exTask] exErrOutcomes).started = List.range 3 ∧
        1 ∈ (runBatch [exTask, exTask, exTask] exErrOutcomes).errorsShown ∧
        (runBatch [exTask, exTask, exTask] exErrOutcomes).progress = (0, 0) ∧
        (runBatch [exTask, exTask, exTask] exErrOutcomes).toasts.filter
            (fun t => t.level == ToastLevel.success) =
          [⟨ToastMsg.batchDone 3, ToastLevel.success⟩]) :=
  ⟨by decide, by decide,
    batch_error_isolated [exTask, exTask, exTask] exErrOutcomes 1 "boom"
      (by decide) (by decide)⟩

/-- C7: pipeline execution requires at least one step with a non-empty
trimmed prompt and at least one initial image; when either is missing an
alert is surfaced and onExecute is never invoked, so execution never
starts. -/
theorem pipeline_validation_blocks (mode : PipelineMode) (steps : List PipelineStep)
    (atts : List Attachment)
    (h : validPipelineSteps steps = [] ∨ atts = []) :
    (∃ m, handleExecute mode steps atts = ExecuteResult.alerted m) ∧
    ∀ m vs a, ¬ handleExecute mode steps atts = ExecuteResult.executed m vs a := by
  have key : ∃ m, handleExecute mode steps atts = ExecuteResult.alerted m := by
    unfold handleExecute
    rcases h with hv | ha
    · exact ⟨.needOneStep, by simp [hv]⟩
    · by_cases hl : (validPipelineSteps steps).length = 0
      · exact ⟨.needOneStep, by simp [hl]⟩
      · exact ⟨.needOneImage, by simp [hl, ha]⟩
  obtain ⟨m, hm⟩ := key
  refine ⟨⟨m, hm⟩, ?_⟩
  intro m2 vs a hcon
  rw [hm] at hcon
  exact ExecuteResult.noConfusion hcon

/-- C7, witness: a single step whose prompt is blank after trimming, with one
image uploaded, is rejected with an alert and onExecute is not invoked. -/
theorem pipeline_validation_blocks_witness :
    (validPipelineSteps [stepBlank] = [] ∨ ([attA] : List Attachment) = []) ∧
      ((∃ m, handleExecute PipelineMode.serial [stepBlank] [attA] =
          ExecuteResult.alerted m) ∧
        ∀ m vs a, ¬ handleExecute PipelineMode.serial [stepBlank] [attA] =
          ExecuteResult.executed m vs a) :=
  ⟨Or.inl (by decide),
    pipeline_validation_blocks PipelineMode.serial [stepBlank] [attA]
      (Or.inl (by decide))⟩

/-- C8, counterexample: a non-streaming result consisting of a thought part
followed by a non-thought answer part is recorded with the total elapsed
time as its thinking duration even though the result is not thought-only,
contradicting the claim that the duration equals the total elapsed time only
for thought-only results. -/
theorem thinking_duration_counterexample :
    nonStreamingThinking [thoughtPart, answerPart] 7 = some 7 ∧
    isThoughtOnly [thoughtPart, answerPart] = false :=
  ⟨rfl, rfl⟩

/-- C8, amended: for every non-streaming generation result, the recorded
thinking duration equals the total elapsed wall-clock time whenever the
result contains at least one thought part, whether or not non-thought parts
are present; when no thought part exists, no thinking duration is
recorded. -/
theorem thinking_duration_total_when_any_thought (parts : List ContentPart) (d : Nat) :
    ((∃ p ∈ parts, p.thought = true) → nonStreamingThinking parts d = some d) ∧
    ((∀ p ∈ parts, p.thought = false) → nonStreamingThinking parts d = none) := by
  constructor
  · intro hex
    unfold nonStreamingThinking
    rw [if_pos]
    exact List.any_eq_true.mpr hex
  · intro hall
    unfold nonStreamingThinking
    rw [if_neg]
    rw [List.any_eq_true]
    rintro ⟨p, hp, hthought⟩
    rw [hall p hp] at hthought
    exact Bool.false_ne_true hthought

/-- C8, witness: the amended statement instantiated at a result with a
thought part among answer parts and at a result with no thought part. -/
theorem thinking_duration_total_when_any_thought_witness :
    nonStreamingThinking [answerPart, thoughtPart] 5 = some 5 ∧
    nonStreamingThinking [answerPart] 5 = none :=
  ⟨(thinking_duration_total_when_any_thought [answerPart, thoughtPart] 5).1 (by decide),
    (thinking_duration_total_when_any_thought [answerPart] 5).2 (by decide)⟩

/-- C9: after any sequence of attachment operations the list has at most 14
entries, excess files having been silently dropped by the 14-entry
truncation, so whenever handleExecute hands an initial image set to
onExecute, that set has at most 14 images. -/
theorem attachments_bounded (ops : List AttachOp) (mode : PipelineMode)
    (steps : List PipelineStep) (m : PipelineMode) (vs : List PipelineStep)
    (a : List Attachment)
    (h : handleExecute mode steps (applyOps ops) = ExecuteResult.executed m vs a) :
    (applyOps ops).length ≤ 14 ∧ a.length ≤ 14 := by
  have hb := applyOps_length_le ops
  refine ⟨hb, ?_⟩
  simp only [handleExecute] at h
  by_cases hv : (validPipelineSteps steps).length = 0
  · simp [hv] at h
  · by_cases ha : (applyOps ops).length = 0
    · simp [hv, ha] at h
    · simp only [if_neg hv, if_neg ha, ExecuteResult.executed.injEq] at h
      exact h.2.2 ▸ hb

/-- C9, witness: adding twenty files at once leaves fourteen attachments, and
the set handed to onExecute is that fourteen-element list. -/
theorem attachments_bounded_witness :
    handleExecute PipelineMode.serial [stepA]
        (applyOps [AttachOp.add (List.replicate 20 attA)]) =
      ExecuteResult.executed PipelineMode.serial [stepA] (List.replicate 14 attA) ∧
    ((applyOps [AttachOp.add (List.replicate 20 attA)]).length ≤ 14 ∧
      (List.replicate 14 attA).length ≤ 14) :=
  ⟨by decide,
    attachments_bounded [AttachOp.add (List.replicate 20 attA)] PipelineMode.serial
      [stepA] PipelineMode.serial [stepA] (List.replicate 14 attA) (by decide)⟩

/-- C10: when pipeline execution starts, the step list handed to onExecute is
exactly the subsequence of configured steps whose prompt is non-empty after
trimming, in their original order: it is a sublist of the configured steps
and a step belongs to it exactly when it is a configured step with a
non-blank trimmed prompt; blank steps are silently dropped rather than
raising an error. -/
theorem pipeline_steps_filtered (mode : PipelineMode) (steps : List PipelineStep)
    (atts : List Attachment)
    (h1 : ¬ validPipelineSteps steps = []) (h2 : ¬ atts = []) :
    ∃ vs, handleExecute mode steps atts = ExecuteResult.executed mode vs atts ∧
      vs.Sublist steps ∧
      ∀ s, s ∈ vs ↔ (s ∈ steps ∧ ¬ jsTrim s.prompt = "") := by
  have hl : ¬ (validPipelineSteps steps).length = 0 := by
    simpa [List.length_eq_zero] using h1
  have ha : ¬ atts.length = 0 := by simpa [List.length_eq_zero] using h2
  refine ⟨validPipelineSteps steps, ?_, List.filter_sublist _, ?_⟩
  · simp [handleExecute, hl, ha]
  · intro s
    constructor
    · intro hs
      have hmem := List.mem_filter.mp hs
      refine ⟨hmem.1, ?_⟩
      have hp : 0 < (jsTrim s.prompt).length := by simpa using hmem.2
      exact (stringLengthPos _).mp hp
    · rintro ⟨hmem, hne⟩
      exact List.mem_filter.mpr ⟨hmem, by simpa using (stringLengthPos _).mpr hne⟩

/-- C10, witness: of a real step followed by a blank step, only the real step
is handed to onExecute, as a sublist characterized by non-blank trimmed
prompts. -/
theorem pipeline_steps_filtered_witness :
    (¬ validPipelineSteps [stepA, stepBlank] = []) ∧
      (¬ ([attA] : List Attachment) = []) ∧
      ∃ vs, handleExecute PipelineMode.serial [stepA, stepBlank] [attA] =
          ExecuteResult.executed PipelineMode.serial vs [attA] ∧
        vs.Sublist [stepA, stepBlank] ∧
        ∀ s, s ∈ vs ↔ (s ∈ ([stepA, stepBlank] : List PipelineStep) ∧
          ¬ jsTrim s.prompt = "") :=
  ⟨by decide, by decide,
    pipeline_steps_filtered PipelineMode.serial [stepA, stepBlank] [attA]
      (by decide) (by decide)⟩
